import Mathlib

/-!
Verification development for the fin2couple scheduling and settlement engine.

The TypeScript source is shallowly embedded: JS `Date` values are modelled as a
day number (days since 1970-01-01, UTC) together with a time-of-day component;
monetary amounts are modelled as rationals; fallible methods return
`Except String`.  Calendar arithmetic mirrors ECMAScript `setDate` / `setMonth`
/ `setFullYear` semantics (civil-calendar conversion with month/day overflow
rolling forward).
-/

/-- Model of a JS `Date`: `day` is the number of days since 1970-01-01 (UTC),
`tod` the milliseconds elapsed within that day (0 ≤ tod < 86400000 for dates
arising from the code; comparisons use the combined timestamp). -/
structure JDate where
  day : Int
  tod : Nat
deriving DecidableEq

/-- Timestamp in milliseconds, as compared by JS `<` / `<=` on `Date`s. -/
def JDate.millis (t : JDate) : Int := t.day * 86400000 + t.tod

/-- JS `a <= b` on dates. -/
def jsLe (a b : JDate) : Bool := decide (a.millis ≤ b.millis)

/-- JS `a < b` on dates. -/
def jsLt (a b : JDate) : Bool := decide (a.millis < b.millis)

/-- JS `d.setHours(0, 0, 0, 0)`: normalize to the start of the calendar day. -/
def JDate.startOfDay (t : JDate) : JDate := { day := t.day, tod := 0 }

/-- JS `d.setDate(d.getDate() + k)`: adding k days preserves the time of day. -/
def JDate.addDays (t : JDate) (k : Int) : JDate := { t with day := t.day + k }

/-- Day number of the civil date (y, m, d), m in 1..12 (Gregorian, proleptic);
the standard days-from-civil algorithm with truncating division. -/
def daysFromCivil (y m d : Int) : Int :=
  let y1 := if m ≤ 2 then y - 1 else y
  let era := (if 0 ≤ y1 then y1 else y1 - 399) / 400
  let yoe := y1 - era * 400
  let mp := (m + 9) % 12
  let doy := (153 * mp + 2) / 5 + d - 1
  let doe := yoe * 365 + yoe / 4 - yoe / 100 + doy
  era * 146097 + doe - 719468

/-- Inverse of `daysFromCivil`: civil date (y, m, d) of a day number. -/
def civilFromDays (z0 : Int) : Int × Int × Int :=
  let z := z0 + 719468
  let era := (if 0 ≤ z then z else z - 146096) / 146097
  let doe := z - era * 146097
  let yoe := (doe - doe / 1460 + doe / 36524 - doe / 146096) / 365
  let y := yoe + era * 400
  let doy := doe - (365 * yoe + yoe / 4 - yoe / 100)
  let mp := (5 * doy + 2) / 153
  let d := doy - (153 * mp + 2) / 5 + 1
  let m := if mp < 10 then mp + 3 else mp - 9
  (if m ≤ 2 then y + 1 else y, m, d)

/-- ECMAScript `MakeDay(year, monthIndex, date)`: `monthIndex` is 0-based and
may overflow into adjacent years; a `date` beyond the month's length rolls
forward into the following months. -/
def jsMakeDay (y monthIndex d : Int) : Int :=
  let y1 := y + monthIndex.fdiv 12
  let m1 := monthIndex.emod 12
  daysFromCivil y1 (m1 + 1) 1 + (d - 1)

/-- JS `d.setMonth(d.getMonth() + k)`: month arithmetic with calendar overflow,
preserving the time of day. -/
def JDate.setMonthAdd (t : JDate) (k : Int) : JDate :=
  match civilFromDays t.day with
  | (y, m, d) => { t with day := jsMakeDay y (m - 1 + k) d }

/-- JS `d.setFullYear(d.getFullYear() + k)`, preserving month, day-of-month
(with Feb 29 overflow) and time of day. -/
def JDate.setYearAdd (t : JDate) (k : Int) : JDate :=
  match civilFromDays t.day with
  | (y, m, d) => { t with day := jsMakeDay (y + k) (m - 1) d }

/-- Model of `d.toISOString().split('T')[0]`, the deduplication key used by the
occurrence generator: the UTC calendar date, identified with the day number. -/
def dateKey (t : JDate) : Int := t.day

/-- OccurrenceStatus enum shared by installments and recurring occurrences. -/
inductive OccurrenceStatus where
  | PENDING
  | PAID
  | SKIPPED
deriving DecidableEq

/-- RecurrenceFrequency enum. -/
inductive RecurrenceFrequency where
  | DAILY
  | WEEKLY
  | MONTHLY
  | YEARLY
deriving DecidableEq

/-- JS `Math.round` on a rational: round half toward positive infinity,
i.e. the floor of `q + 1/2`. -/
def jsRound (q : ℚ) : Int := (q + 1 / 2).floor

/-- `Math.round(x * 100) / 100`: round to 2 decimal places. -/
def round2 (q : ℚ) : ℚ := (jsRound (q * 100) : ℚ) / 100

/-- Installment entity (src/src/core/domain/entities/installment.entity.ts).
The id, timestamps and zod format validation are identity/plumbing concerns
and are not part of the state the claims mention. -/
structure Installment where
  template_id : String
  installment_number : Int
  amount : ℚ
  due_date : JDate
  status : OccurrenceStatus
  transaction_id : Option String
deriving DecidableEq

/-- Constructor path used by the generators: `Installment.create` with no
status and no transaction id supplied, so the zod defaults apply. -/
def Installment.mkNew (templateId : String) (number : Int) (amount : ℚ)
    (dueDate : JDate) : Installment :=
  { template_id := templateId, installment_number := number, amount := amount,
    due_date := dueDate, status := .PENDING, transaction_id := none }

def Installment.isPending (inst : Installment) : Bool :=
  inst.status = OccurrenceStatus.PENDING

def Installment.isPaid (inst : Installment) : Bool :=
  inst.status = OccurrenceStatus.PAID

def Installment.isSkipped (inst : Installment) : Bool :=
  inst.status = OccurrenceStatus.SKIPPED

/-- `isOverdue()`: due date, normalized to start of day, lies strictly more
than 30 days before the current date normalized to start of day. -/
def Installment.isOverdue (inst : Installment) (now : JDate) : Bool :=
  let today := now.startOfDay
  let dueDate := inst.due_date.startOfDay
  let thirtyDaysAgo := today.addDays (-30)
  jsLt dueDate thirtyDaysAgo

def Installment.canBePaid (inst : Installment) (now : JDate) : Bool :=
  inst.isPending && !(inst.isOverdue now)

def Installment.canBeSkipped (inst : Installment) : Bool :=
  inst.isPending

/-- `markAsPaid(transactionId)`: guards exactly as in the source — only the
pending check and the empty-transaction-id check, in that order. -/
def Installment.markAsPaid (inst : Installment) (transactionId : String) :
    Except String Installment :=
  if !inst.isPending then
    .error "Only pending installments can be marked as paid"
  else if transactionId = "" then
    .error "Transaction ID is required to mark as paid"
  else
    .ok { inst with status := .PAID, transaction_id := some transactionId }

/-- `markAsSkipped()`: only legal from PENDING. -/
def Installment.markAsSkipped (inst : Installment) : Except String Installment :=
  if !inst.isPending then
    .error "Only pending installments can be skipped"
  else
    .ok { inst with status := .SKIPPED }

/-- RecurringOccurrence entity (recurring-occurrence.entity.ts); the state
machine is textually identical to the installment one. -/
structure RecurringOccurrence where
  template_id : String
  due_date : JDate
  status : OccurrenceStatus
  transaction_id : Option String
deriving DecidableEq

/-- Constructor path used by the generators (`RecurringOccurrence.create`
with defaults). -/
def RecurringOccurrence.mkNew (templateId : String) (dueDate : JDate) :
    RecurringOccurrence :=
  { template_id := templateId, due_date := dueDate, status := .PENDING,
    transaction_id := none }

def RecurringOccurrence.isPending (occ : RecurringOccurrence) : Bool :=
  occ.status = OccurrenceStatus.PENDING

def RecurringOccurrence.isPaid (occ : RecurringOccurrence) : Bool :=
  occ.status = OccurrenceStatus.PAID

def RecurringOccurrence.isSkipped (occ : RecurringOccurrence) : Bool :=
  occ.status = OccurrenceStatus.SKIPPED

def RecurringOccurrence.isOverdue (occ : RecurringOccurrence) (now : JDate) : Bool :=
  let today := now.startOfDay
  let dueDate := occ.due_date.startOfDay
  let thirtyDaysAgo := today.addDays (-30)
  jsLt dueDate thirtyDaysAgo

def RecurringOccurrence.canBePaid (occ : RecurringOccurrence) (now : JDate) : Bool :=
  occ.isPending && !(occ.isOverdue now)

def RecurringOccurrence.markAsPaid (occ : RecurringOccurrence)
    (transactionId : String) : Except String RecurringOccurrence :=
  if !occ.isPending then
    .error "Only pending occurrences can be marked as paid"
  else if transactionId = "" then
    .error "Transaction ID is required to mark as paid"
  else
    .ok { occ with status := .PAID, transaction_id := some transactionId }

def RecurringOccurrence.markAsSkipped (occ : RecurringOccurrence) :
    Except String RecurringOccurrence :=
  if !occ.isPending then
    .error "Only pending occurrences can be skipped"
  else
    .ok { occ with status := .SKIPPED }

/-- InstallmentTemplate entity (installment-template.entity.ts); only the
fields read by the modelled operations are kept (the remaining fields copy the
transaction shape and are not consulted by the scheduling algorithms). -/
structure InstallmentTemplate where
  id : String
  couple_id : String
  total_amount : ℚ
  total_installments : Nat
  first_due_date : JDate
  is_active : Bool
deriving DecidableEq

/-- `getInstallmentAmount()`: the raw, unrounded division `total_amount /
total_installments`. -/
def InstallmentTemplate.getInstallmentAmount (t : InstallmentTemplate) : ℚ :=
  t.total_amount / (t.total_installments : ℚ)

/-- Due-date formula used by `calculateDueDate` once the bounds check has
passed: `first_due_date` plus `installmentNumber - 1` calendar months. -/
def InstallmentTemplate.dueDateAt (t : InstallmentTemplate)
    (installmentNumber : Int) : JDate :=
  t.first_due_date.setMonthAdd (installmentNumber - 1)

/-- `calculateDueDate(installmentNumber)` with its bounds guard. -/
def InstallmentTemplate.calculateDueDate (t : InstallmentTemplate)
    (installmentNumber : Int) : Except String JDate :=
  if installmentNumber < 1 ∨ installmentNumber > (t.total_installments : Int) then
    .error "Invalid installment number"
  else
    .ok (t.dueDateAt installmentNumber)

/-- `CreateInstallmentTransactionUseCase.generateInstallments` (and the
identical loop in `CreateInstallmentTemplateUseCase`): for i = 1..n the due
date is `calculateDueDate(i)` (always in bounds here), the amount is the raw
per-installment value except that the last entry gets
`total_amount - installmentAmount * (n - 1)`, and each amount is rounded to 2
decimals at entity creation. -/
def generateInstallments (template : InstallmentTemplate) : List Installment :=
  let installmentAmount := template.getInstallmentAmount
  (List.range template.total_installments).map (fun (idx : Nat) =>
    let i : Int := (idx : Int) + 1
    let dueDate := template.dueDateAt i
    let amount :=
      if i = (template.total_installments : Int) then
        template.total_amount - installmentAmount * ((template.total_installments : ℚ) - 1)
      else
        installmentAmount
    Installment.mkNew template.id i (round2 amount) dueDate)

/-- RecurringTransactionTemplate: the fields read by the generation and
settlement code (the remaining fields copy the transaction shape). -/
structure RecurringTemplate where
  id : String
  couple_id : String
  amount : ℚ
  frequency : RecurrenceFrequency
  interval : Int
  start_date : JDate
  end_date : Option JDate
  next_occurrence : JDate
  is_active : Bool
deriving DecidableEq

/-- JS `x || d` on an optional number: `undefined`, `0` (and `NaN`, not
representable here) are falsy and replaced by the default. -/
def jsOrDefault (x : Option Int) (d : Int) : Int :=
  match x with
  | none => d
  | some v => if v = 0 then d else v

/-- `calculateNextDate(currentDate, frequency, interval)`: one recurrence
step (shared verbatim by both generation use cases). -/
def calculateNextDate (currentDate : JDate) (frequency : RecurrenceFrequency)
    (interval : Int) : JDate :=
  match frequency with
  | .DAILY => currentDate.addDays interval
  | .WEEKLY => currentDate.addDays (interval * 7)
  | .MONTHLY => currentDate.setMonthAdd interval
  | .YEARLY => currentDate.setYearAdd interval

/-- `calculateEndDate(template, monthsAhead)`: `new Date()` (the current
instant `now`) plus `monthsAhead` months, clamped to `template.end_date` when
that is earlier. -/
def calculateEndDate (template : RecurringTemplate) (monthsAhead : Int)
    (now : JDate) : JDate :=
  let endDate := now.setMonthAdd monthsAhead
  match template.end_date with
  | some e => if jsLt e endDate then e else endDate
  | none => endDate

/-- The `while (currentDate <= endDate)` loop of
`GenerateRecurringOccurrencesUseCase.execute`: emit an occurrence at the
cursor unless its date key is already scheduled, step the cursor, and break
early once the cursor passes `template.end_date`.  `fuel` bounds the number of
iterations (the source loop terminates because each step advances the date). -/
def genLoop (template : RecurringTemplate) (existingDates : List Int)
    (endDate : JDate) : Nat → JDate → List RecurringOccurrence
  | 0, _ => []
  | fuel + 1, currentDate =>
    if jsLe currentDate endDate then
      let emitted :=
        if dateKey currentDate ∈ existingDates then ([] : List RecurringOccurrence)
        else [RecurringOccurrence.mkNew template.id currentDate]
      let nextDate := calculateNextDate currentDate template.frequency template.interval
      match template.end_date with
      | some e =>
        if jsLt e nextDate then emitted
        else emitted ++ genLoop template existingDates endDate fuel nextDate
      | none => emitted ++ genLoop template existingDates endDate fuel nextDate
    else []

/-- Result shape of `GenerateRecurringOccurrencesUseCase.execute`: the
template as returned (the use case never writes to it) and the newly created
occurrences. -/
structure GenerateOccurrencesOutput where
  template : RecurringTemplate
  occurrences : List RecurringOccurrence
deriving DecidableEq

/-- `GenerateRecurringOccurrencesUseCase.execute`: the template lookup is
modelled by passing the found template directly; `existing` is the occurrence
list the repository returns for the template. -/
def generateRecurringOccurrencesExecute (template : RecurringTemplate)
    (existing : List RecurringOccurrence) (months_ahead : Option Int)
    (now : JDate) (fuel : Nat) : Except String GenerateOccurrencesOutput :=
  let monthsAhead := jsOrDefault months_ahead 3
  if !template.is_active then
    .error "Cannot generate occurrences for inactive template"
  else
    let existingDates := existing.map (fun o => dateKey o.due_date)
    let endDate := calculateEndDate template monthsAhead now
    let occurrences := genLoop template existingDates endDate fuel template.next_occurrence
    .ok { template := template, occurrences := occurrences }

/-- The occurrence loop of `CreateRecurringTransactionUseCase
.generateOccurrences`: identical stepping and horizon logic, but with no
dedup set (the template was just created, so no occurrences exist yet). -/
def crGenLoop (template : RecurringTemplate) (endDate : JDate) :
    Nat → JDate → List RecurringOccurrence
  | 0, _ => []
  | fuel + 1, currentDate =>
    if jsLe currentDate endDate then
      let occurrence := RecurringOccurrence.mkNew template.id currentDate
      let nextDate := calculateNextDate currentDate template.frequency template.interval
      match template.end_date with
      | some e =>
        if jsLt e nextDate then [occurrence]
        else occurrence :: crGenLoop template endDate fuel nextDate
      | none => occurrence :: crGenLoop template endDate fuel nextDate
    else []

/-- The part of `CreateRecurringTransactionUseCase.execute` the claims are
about: resolve `months_ahead || 3` and generate occurrences for the freshly
created template (whose `next_occurrence` is its `start_date`). -/
def createRecurringGenerate (template : RecurringTemplate)
    (months_ahead : Option Int) (now : JDate) (fuel : Nat) :
    List RecurringOccurrence :=
  let monthsAhead := jsOrDefault months_ahead 3
  let endDate := calculateEndDate template monthsAhead now
  crGenLoop template endDate fuel template.next_occurrence

/-- Ledger transaction, restricted to the fields the settlement claims speak
about; `id` is assigned by the ledger store on creation. -/
structure Transaction where
  id : String
  amount : ℚ
  transaction_date : JDate
deriving DecidableEq

/-- `PayInstallmentUseCase.execute`: repository lookups are modelled as the
optional values they return; `newTxId` is the id the ledger store assigns to
the created transaction. -/
def payInstallmentExecute (installmentLookup : Option Installment)
    (templateLookup : Option InstallmentTemplate)
    (transaction_date : Option JDate) (now : JDate) (newTxId : String) :
    Except String (Installment × Transaction) :=
  match installmentLookup with
  | none => .error "Installment not found"
  | some installment =>
    if !installment.canBePaid now then
      if installment.isPaid then .error "Installment is already paid"
      else if installment.isSkipped then .error "Cannot pay skipped installment"
      else if installment.isOverdue now then
        .error "Cannot pay overdue installment (>30 days past due)"
      else .error "Installment cannot be paid"
    else
      match templateLookup with
      | none => .error "Template not found"
      | some _template =>
        let transactionDate := transaction_date.getD installment.due_date
        let transaction : Transaction :=
          { id := newTxId, amount := installment.amount,
            transaction_date := transactionDate }
        (installment.markAsPaid transaction.id).map fun paid =>
          (paid, transaction)

/-- `PayRecurringOccurrenceUseCase.execute`: as above, with the transaction
amount taken from the template. -/
def payRecurringOccurrenceExecute (occurrenceLookup : Option RecurringOccurrence)
    (templateLookup : Option RecurringTemplate)
    (transaction_date : Option JDate) (now : JDate) (newTxId : String) :
    Except String (RecurringOccurrence × Transaction) :=
  match occurrenceLookup with
  | none => .error "Occurrence not found"
  | some occurrence =>
    if !occurrence.canBePaid now then
      if occurrence.isPaid then .error "Occurrence is already paid"
      else if occurrence.isSkipped then .error "Cannot pay skipped occurrence"
      else if occurrence.isOverdue now then
        .error "Cannot pay overdue occurrence (>30 days past due)"
      else .error "Occurrence cannot be paid"
    else
      match templateLookup with
      | none => .error "Template not found"
      | some template =>
        let transactionDate := transaction_date.getD occurrence.due_date
        let transaction : Transaction :=
          { id := newTxId, amount := template.amount,
            transaction_date := transactionDate }
        (occurrence.markAsPaid transaction.id).map fun paid =>
          (paid, transaction)

/-- `PrismaInstallmentRepository.markAsSkipped`: the persisted row is updated
with `status = SKIPPED` only — `transaction_id` is left untouched and the
current status is not checked. -/
def prismaMarkAsSkipped (row : Installment) : Installment :=
  { row with status := .SKIPPED }

/-- `InstallmentController.skipInstallment`: the public skip endpoint calls
the repository update directly, bypassing the entity guard. -/
def controllerSkipInstallment (row : Installment) : Installment :=
  prismaMarkAsSkipped row

/-- The §3 schedule-entry invariant: `transaction_id` is non-null iff
`status = PAID`. -/
def installmentInvariant (inst : Installment) : Prop :=
  inst.transaction_id ≠ none ↔ inst.status = OccurrenceStatus.PAID

instance (inst : Installment) : Decidable (installmentInvariant inst) := by
  unfold installmentInvariant
  infer_instance

/-! Helper lemmas shared by several claims. -/

/-- Batteries `Rat.floor` agrees with the mathlib floor. -/
theorem ratFloor_eq_intFloor (q : ℚ) : q.floor = ⌊q⌋ := by
  rw [Rat.floor_def', Rat.floor_def]

/-- Characterization of `jsRound` used to evaluate concrete roundings. -/
theorem jsRound_eq_of (q : ℚ) (z : ℤ) (h1 : (z : ℚ) ≤ q + 1 / 2)
    (h2 : q + 1 / 2 < z + 1) : jsRound q = z := by
  unfold jsRound
  rw [ratFloor_eq_intFloor]
  exact Int.floor_eq_iff.mpr ⟨h1, h2⟩

/-- Rounding an integral amount to 2 decimals is the identity. -/
theorem round2_intCast (z : ℤ) : round2 (z : ℚ) = z := by
  unfold round2
  rw [jsRound_eq_of ((z : ℚ) * 100) (z * 100) (by push_cast; norm_num)
      (by push_cast; norm_num)]
  push_cast
  field_simp

/-! Concrete fixtures used by the claims. -/

/-- Scenario-A installment template: 1200.00 in 12 monthly installments, first
due 2024-02-01 (day number 19754). -/
def templateA : InstallmentTemplate :=
  { id := "aaaaaaaa-aaaa-aaaa-aaaa-aaaaaaaaaaaa",
    couple_id := "cccccccc-cccc-cccc-cccc-cccccccccccc",
    total_amount := 1200, total_installments := 12,
    first_due_date := ⟨19754, 0⟩, is_active := true }

/-- Scenario-B installment template: 100.00 in 3 monthly installments. -/
def templateB : InstallmentTemplate :=
  { id := "bbbbbbbb-bbbb-bbbb-bbbb-bbbbbbbbbbbb",
    couple_id := "cccccccc-cccc-cccc-cccc-cccccccccccc",
    total_amount := 100, total_installments := 3,
    first_due_date := ⟨19754, 0⟩, is_active := true }

/-- Scenario-C recurring template: MONTHLY, interval 1, start 2024-01-15 (day
19737), no end date, active, cursor at the start date. -/
def templateC : RecurringTemplate :=
  { id := "dddddddd-dddd-dddd-dddd-dddddddddddd",
    couple_id := "cccccccc-cccc-cccc-cccc-cccccccccccc",
    amount := 50, frequency := .MONTHLY, interval := 1,
    start_date := ⟨19737, 0⟩, end_date := none,
    next_occurrence := ⟨19737, 0⟩, is_active := true }

/-- 2024-01-01 (day number 19723), the "today" of scenario C. -/
def jan2024 : JDate := ⟨19723, 0⟩

/-- A transaction id for concrete runs. -/
def txId1 : String := "44444444-4444-4444-4444-444444444444"

/-- Evaluation lemma: rounding 100/3 to 2 decimals gives 33.33. -/
theorem round2_hundred_thirds : round2 (100 / 3) = 3333 / 100 := by
  unfold round2
  rw [jsRound_eq_of (100 / 3 * 100) 3333 (by norm_num) (by norm_num)]
  norm_num

/-- CLAIM C1.  The code's installment split at total = 100.00, count = 3:
because `generateInstallments` subtracts the UNROUNDED per-installment value
`total/count` from the total, the last installment also rounds to 33.33
instead of the remainder-absorbing 33.34, and the three amounts sum to 99.99,
not 100.00.  The claim (and the code's own remainder comment, and the spec's
scenario B) require the last amount to be `total − round2(total/count)×2 =
33.34` and the sum to be exactly the total. -/
theorem claim_C1_split_drops_remainder :
    (generateInstallments templateB).map Installment.amount =
      [3333 / 100, 3333 / 100, 3333 / 100] ∧
    ((generateInstallments templateB).map Installment.amount).sum = 9999 / 100 ∧
    ((9999 : ℚ) / 100 ≠ templateB.total_amount) ∧
    templateB.total_amount - round2 (templateB.total_amount / 3) * 2 = 3334 / 100 := by
  have e1 : round2 ((100 : ℚ) / 3) = 3333 / 100 := round2_hundred_thirds
  have e2 : round2 ((100 : ℚ) - 100 / 3 * (3 - 1)) = 3333 / 100 := by
    have h : (100 : ℚ) - 100 / 3 * (3 - 1) = 100 / 3 := by norm_num
    rw [h]; exact e1
  refine ⟨?_, ?_, by norm_num [templateB], ?_⟩
  · simp only [generateInstallments, templateB, InstallmentTemplate.getInstallmentAmount,
      Installment.mkNew, List.range_succ, List.range_zero, List.nil_append,
      List.cons_append, List.map_cons, List.map_nil]
    norm_num [e1, e2]
  · simp only [generateInstallments, templateB, InstallmentTemplate.getInstallmentAmount,
      Installment.mkNew, List.range_succ, List.range_zero, List.nil_append,
      List.cons_append, List.map_cons, List.map_nil]
    norm_num [e1, e2]
  · rw [show templateB.total_amount = (100 : ℚ) from rfl, round2_hundred_thirds]
    norm_num

/-- Concrete pending installment whose due date is 31 days before `nowFix`. -/
def instOverduePending : Installment :=
  Installment.mkNew "11111111-1111-1111-1111-111111111111" 1 10 ⟨69, 0⟩

/-- The current date used with `instOverduePending` (day 100, so the due date
day 69 is 31 days in the past). -/
def nowFix : JDate := ⟨100, 0⟩

/-- CLAIM C3, counterexample.  The entity-level pay operation `markAsPaid`
does not consult `isOverdue` at all: on a PENDING entry 31 days past due
(hence overdue) with a non-empty transaction id it succeeds, where the claim
requires it to fail with an overdue error. -/
theorem claim_C3_counterexample :
    instOverduePending.status = OccurrenceStatus.PENDING ∧
    instOverduePending.isOverdue nowFix = true ∧
    instOverduePending.markAsPaid txId1 =
      .ok { instOverduePending with
              status := .PAID, transaction_id := some txId1 } := by
  refine ⟨rfl, by decide, rfl⟩

/-- CLAIM C3, amended.  At the entity level, `pay(transaction_id)` succeeds
iff the entry is PENDING and the transaction id is non-empty — overdue status
is not checked (the overdue gate lives only in the settlement use cases) —
and every failure from a non-PENDING state raises the one generic
only-pending error, not distinguishing already-paid from already-skipped; a
missing transaction id is a distinct error; `skip()` succeeds iff PENDING;
and a successful pay or skip leaves the entry PAID respectively SKIPPED, so
an entry never returns to PENDING. -/
theorem claim_C3_entity_state_machine (inst : Installment)
    (occ : RecurringOccurrence) (tx : String) :
    (inst.markAsPaid tx =
        .ok { inst with status := .PAID, transaction_id := some tx } ↔
      inst.status = OccurrenceStatus.PENDING ∧ tx ≠ "") ∧
    (inst.status ≠ OccurrenceStatus.PENDING →
      inst.markAsPaid tx = .error "Only pending installments can be marked as paid") ∧
    (inst.status = OccurrenceStatus.PENDING → tx = "" →
      inst.markAsPaid tx = .error "Transaction ID is required to mark as paid") ∧
    (inst.markAsSkipped = .ok { inst with status := .SKIPPED } ↔
      inst.status = OccurrenceStatus.PENDING) ∧
    (inst.status ≠ OccurrenceStatus.PENDING →
      inst.markAsSkipped = .error "Only pending installments can be skipped") ∧
    (∀ i2, inst.markAsPaid tx = .ok i2 → i2.status = OccurrenceStatus.PAID) ∧
    (∀ i2, inst.markAsSkipped = .ok i2 → i2.status = OccurrenceStatus.SKIPPED) ∧
    (occ.markAsPaid tx =
        .ok { occ with status := .PAID, transaction_id := some tx } ↔
      occ.status = OccurrenceStatus.PENDING ∧ tx ≠ "") ∧
    (occ.status ≠ OccurrenceStatus.PENDING →
      occ.markAsPaid tx = .error "Only pending occurrences can be marked as paid") ∧
    (occ.markAsSkipped = .ok { occ with status := .SKIPPED } ↔
      occ.status = OccurrenceStatus.PENDING) ∧
    (∀ o2, occ.markAsPaid tx = .ok o2 → o2.status = OccurrenceStatus.PAID) ∧
    (∀ o2, occ.markAsSkipped = .ok o2 → o2.status = OccurrenceStatus.SKIPPED) := by
  by_cases hp : inst.status = OccurrenceStatus.PENDING <;>
    by_cases hq : occ.status = OccurrenceStatus.PENDING <;>
    by_cases ht : tx = "" <;>
    simp_all [Installment.markAsPaid, Installment.markAsSkipped,
      Installment.isPending, RecurringOccurrence.markAsPaid,
      RecurringOccurrence.markAsSkipped, RecurringOccurrence.isPending]

/-- Witness for the amended C3 theorem at a concrete pending installment and
occurrence. -/
theorem claim_C3_entity_state_machine_witness :
    instOverduePending.markAsPaid txId1 =
      .ok { instOverduePending with
              status := .PAID, transaction_id := some txId1 } :=
  (claim_C3_entity_state_machine instOverduePending
    (RecurringOccurrence.mkNew "22222222-2222-2222-2222-222222222222" ⟨69, 0⟩)
    txId1).1.mpr ⟨rfl, by decide⟩

/-- CLAIM C4.  The overdue predicate holds iff the due date's calendar day is
strictly more than 30 days before the current calendar day, for both entry
kinds; hence a 31-days-past-due entry is overdue and cannot be paid, while a
PENDING entry 29 days past due can be paid, where canBePaid is exactly
PENDING-and-not-overdue. -/
theorem claim_C4_overdue_rule (inst : Installment) (occ : RecurringOccurrence)
    (now : JDate) :
    (inst.isOverdue now = true ↔ now.day - inst.due_date.day > 30) ∧
    (occ.isOverdue now = true ↔ now.day - occ.due_date.day > 30) ∧
    (inst.due_date.day = now.day - 31 →
      inst.isOverdue now = true ∧ inst.canBePaid now = false) ∧
    (occ.due_date.day = now.day - 31 →
      occ.isOverdue now = true ∧ occ.canBePaid now = false) ∧
    (inst.status = OccurrenceStatus.PENDING → inst.due_date.day = now.day - 29 →
      inst.canBePaid now = true) ∧
    (occ.status = OccurrenceStatus.PENDING → occ.due_date.day = now.day - 29 →
      occ.canBePaid now = true) ∧
    (inst.canBePaid now = (inst.isPending && !(inst.isOverdue now))) ∧
    (occ.canBePaid now = (occ.isPending && !(occ.isOverdue now))) := by
  have hi : inst.isOverdue now = true ↔ now.day - inst.due_date.day > 30 := by
    simp only [Installment.isOverdue, JDate.startOfDay, JDate.addDays, jsLt,
      JDate.millis, decide_eq_true_eq]
    omega
  have ho : occ.isOverdue now = true ↔ now.day - occ.due_date.day > 30 := by
    simp only [RecurringOccurrence.isOverdue, JDate.startOfDay, JDate.addDays, jsLt,
      JDate.millis, decide_eq_true_eq]
    omega
  refine ⟨hi, ho, ?_, ?_, ?_, ?_, rfl, rfl⟩
  · intro h
    have h31 : inst.isOverdue now = true := hi.mpr (by omega)
    exact ⟨h31, by simp [Installment.canBePaid, h31]⟩
  · intro h
    have h31 : occ.isOverdue now = true := ho.mpr (by omega)
    exact ⟨h31, by simp [RecurringOccurrence.canBePaid, h31]⟩
  · intro hs h
    have h29' : inst.isOverdue now = false := by
      cases hov : inst.isOverdue now
      · rfl
      · exact absurd (hi.mp hov) (by omega)
    simp [Installment.canBePaid, Installment.isPending, hs, h29']
  · intro hs h
    have h29' : occ.isOverdue now = false := by
      cases hov : occ.isOverdue now
      · rfl
      · exact absurd (ho.mp hov) (by omega)
    simp [RecurringOccurrence.canBePaid, RecurringOccurrence.isPending, hs, h29']

/-- Witness for C4 at concrete entries 31 and 29 days past due. -/
theorem claim_C4_overdue_rule_witness :
    instOverduePending.isOverdue nowFix = true ∧
    instOverduePending.canBePaid nowFix = false := by
  have h := (claim_C4_overdue_rule instOverduePending
    (RecurringOccurrence.mkNew "22222222-2222-2222-2222-222222222222" ⟨69, 0⟩)
    nowFix).2.2.1 (by decide)
  exact h

/-- A persisted installment row that was paid through the entity path:
status PAID with its settling transaction id, satisfying the §3 invariant. -/
def paidRow : Installment :=
  { template_id := "11111111-1111-1111-1111-111111111111",
    installment_number := 2, amount := 10, due_date := ⟨19754, 0⟩,
    status := .PAID, transaction_id := some txId1 }

/-- CLAIM C6, counterexample.  The public skip endpoint
(`InstallmentController.skipInstallment` → `PrismaInstallmentRepository
.markAsSkipped`) writes `status = SKIPPED` without checking the current
status and without clearing `transaction_id`: applied to a PAID row (which
satisfies the invariant) it produces a SKIPPED row that still carries a
non-null `transaction_id`, violating `transaction_id ≠ null ↔ status =
PAID`. -/
theorem claim_C6_counterexample :
    installmentInvariant paidRow ∧
    controllerSkipInstallment paidRow =
      { paidRow with status := .SKIPPED } ∧
    ¬ installmentInvariant (controllerSkipInstallment paidRow) := by
  refine ⟨?_, rfl, ?_⟩
  · simp [installmentInvariant, paidRow]
  · simp [installmentInvariant, controllerSkipInstallment, prismaMarkAsSkipped, paidRow]

/-- CLAIM C6, amended.  The invariant `transaction_id ≠ null ↔ status = PAID`
holds for entries constructed through the generators' creation path (no
status, no transaction id supplied) and is preserved by the entity-level
`markAsPaid` and `markAsSkipped`; it is NOT preserved by the repository-level
skip used by the public skip endpoint, which sets SKIPPED while leaving
`transaction_id` untouched (and the entity constructor does not itself force
the invariant for arbitrary props). -/
theorem claim_C6_invariant_amended (tid : String) (n : Int) (amt : ℚ)
    (d : JDate) (inst : Installment) (tx : String) :
    installmentInvariant (Installment.mkNew tid n amt d) ∧
    (installmentInvariant inst → ∀ i2, inst.markAsPaid tx = .ok i2 →
      installmentInvariant i2) ∧
    (installmentInvariant inst → ∀ i2, inst.markAsSkipped = .ok i2 →
      installmentInvariant i2) := by
  refine ⟨by simp [installmentInvariant, Installment.mkNew], ?_, ?_⟩
  · intro _hinv i2 h
    unfold Installment.markAsPaid at h
    by_cases hp : inst.status = OccurrenceStatus.PENDING
    · by_cases ht : tx = ""
      · simp [Installment.isPending, hp, ht] at h
      · simp [Installment.isPending, hp, ht] at h
        rw [← h]
        simp [installmentInvariant]
    · simp [Installment.isPending, hp] at h
  · intro hinv i2 h
    unfold Installment.markAsSkipped at h
    by_cases hp : inst.status = OccurrenceStatus.PENDING
    · simp [Installment.isPending, hp] at h
      have htx : inst.transaction_id = none := by
        by_contra hne
        exact absurd (hinv.mp hne) (by simp [hp])
      rw [← h]
      simp [installmentInvariant, htx]
    · simp [Installment.isPending, hp] at h

/-- Witness for the amended C6 theorem: a freshly generated entry satisfies
the invariant and paying it preserves the invariant. -/
theorem claim_C6_invariant_amended_witness :
    installmentInvariant instOverduePending ∧
    installmentInvariant
      { instOverduePending with status := .PAID, transaction_id := some txId1 } := by
  have h := claim_C6_invariant_amended "11111111-1111-1111-1111-111111111111" 1 10
    ⟨69, 0⟩ instOverduePending txId1
  refine ⟨h.1, h.2.1 h.1 _ ?_⟩
  rfl

/-- CLAIM C5.  Settlement of a schedule entry: when the entry fails the
`canBePaid` gate, the use case surfaces one of the three specific errors
(already paid / already skipped / overdue), never the generic fallback; when
the gate passes (and the ledger assigns a non-empty transaction id), the
created transaction's date is the supplied `transaction_date`, defaulting to
the entry's `due_date`; its amount is the installment's own amount for
installments and the template's amount for occurrences; and the entry ends
PAID carrying the new transaction's id. -/
theorem claim_C5_settlement (inst : Installment) (tmplI : InstallmentTemplate)
    (occ : RecurringOccurrence) (tmplR : RecurringTemplate)
    (txd : Option JDate) (now : JDate) (txId : String) :
    (inst.canBePaid now = false →
      payInstallmentExecute (some inst) (some tmplI) txd now txId =
          .error "Installment is already paid" ∨
        payInstallmentExecute (some inst) (some tmplI) txd now txId =
          .error "Cannot pay skipped installment" ∨
        payInstallmentExecute (some inst) (some tmplI) txd now txId =
          .error "Cannot pay overdue installment (>30 days past due)") ∧
    (inst.canBePaid now = true → txId ≠ "" →
      payInstallmentExecute (some inst) (some tmplI) txd now txId =
        .ok ({ inst with status := .PAID, transaction_id := some txId },
             { id := txId, amount := inst.amount,
               transaction_date := txd.getD inst.due_date })) ∧
    (occ.canBePaid now = false →
      payRecurringOccurrenceExecute (some occ) (some tmplR) txd now txId =
          .error "Occurrence is already paid" ∨
        payRecurringOccurrenceExecute (some occ) (some tmplR) txd now txId =
          .error "Cannot pay skipped occurrence" ∨
        payRecurringOccurrenceExecute (some occ) (some tmplR) txd now txId =
          .error "Cannot pay overdue occurrence (>30 days past due)") ∧
    (occ.canBePaid now = true → txId ≠ "" →
      payRecurringOccurrenceExecute (some occ) (some tmplR) txd now txId =
        .ok ({ occ with status := .PAID, transaction_id := some txId },
             { id := txId, amount := tmplR.amount,
               transaction_date := txd.getD occ.due_date })) := by
  refine ⟨?_, ?_, ?_, ?_⟩
  · intro hno
    unfold payInstallmentExecute
    rcases hs : inst.status with _ | _ | _
    · have hov : inst.isOverdue now = true := by
        have := hno
        simp [Installment.canBePaid, Installment.isPending, hs] at this
        exact this
      refine Or.inr (Or.inr ?_)
      simp [hno, Installment.isPaid, Installment.isSkipped, hs, hov]
    · exact Or.inl (by simp [hno, Installment.isPaid, hs])
    · exact Or.inr (Or.inl (by simp [hno, Installment.isPaid, Installment.isSkipped, hs]))
  · intro hyes htx
    have hp : inst.status = OccurrenceStatus.PENDING := by
      simp [Installment.canBePaid, Installment.isPending] at hyes
      exact hyes.1
    unfold payInstallmentExecute
    simp [hyes, Installment.markAsPaid, Installment.isPending, hp, htx, Except.map]
  · intro hno
    unfold payRecurringOccurrenceExecute
    rcases hs : occ.status with _ | _ | _
    · have hov : occ.isOverdue now = true := by
        have := hno
        simp [RecurringOccurrence.canBePaid, RecurringOccurrence.isPending, hs] at this
        exact this
      refine Or.inr (Or.inr ?_)
      simp [hno, RecurringOccurrence.isPaid, RecurringOccurrence.isSkipped, hs, hov]
    · exact Or.inl (by simp [hno, RecurringOccurrence.isPaid, hs])
    · exact Or.inr (Or.inl
        (by simp [hno, RecurringOccurrence.isPaid, RecurringOccurrence.isSkipped, hs]))
  · intro hyes htx
    have hp : occ.status = OccurrenceStatus.PENDING := by
      simp [RecurringOccurrence.canBePaid, RecurringOccurrence.isPending] at hyes
      exact hyes.1
    unfold payRecurringOccurrenceExecute
    simp [hyes, RecurringOccurrence.markAsPaid, RecurringOccurrence.isPending, hp, htx,
      Except.map]

/-- A pending installment due on 2024-02-01, payable on 2024-01-01. -/
def instPayable : Installment :=
  Installment.mkNew "11111111-1111-1111-1111-111111111111" 1 100 ⟨19754, 0⟩

/-- Witness for C5: settling the concrete payable installment with the
transaction date omitted yields a transaction dated on the due date, and the
installment ends PAID with the transaction's id. -/
theorem claim_C5_settlement_witness :
    payInstallmentExecute (some instPayable) (some templateA) none jan2024 txId1 =
      .ok ({ instPayable with status := .PAID, transaction_id := some txId1 },
           { id := txId1, amount := instPayable.amount,
             transaction_date := instPayable.due_date }) := by
  have h := (claim_C5_settlement instPayable templateA
    (RecurringOccurrence.mkNew "22222222-2222-2222-2222-222222222222" ⟨19754, 0⟩)
    templateC none jan2024 txId1).2.1 (by decide) (by decide)
  exact h

/-- One unfolding step of `genLoop`, in emit-then-continue normal form. -/
theorem genLoop_succ (tpl : RecurringTemplate) (E : List Int) (endD : JDate)
    (n : Nat) (c : JDate) :
    genLoop tpl E endD (n + 1) c =
      if jsLe c endD then
        (if dateKey c ∈ E then [] else [RecurringOccurrence.mkNew tpl.id c]) ++
          (match tpl.end_date with
           | some e =>
             if jsLt e (calculateNextDate c tpl.frequency tpl.interval) then []
             else genLoop tpl E endD n (calculateNextDate c tpl.frequency tpl.interval)
           | none => genLoop tpl E endD n (calculateNextDate c tpl.frequency tpl.interval))
      else [] := by
  by_cases hle : jsLe c endD = true
  · rcases hEnd : tpl.end_date with _ | e
    · simp [genLoop, hle, hEnd]
    · by_cases hlt : jsLt e (calculateNextDate c tpl.frequency tpl.interval) = true
      · simp [genLoop, hle, hEnd, hlt]
      · simp [genLoop, hle, hEnd, hlt]
  · simp only [Bool.not_eq_true] at hle
    simp [genLoop, hle]

/-- Shorthand for the continuation part of an unfolded loop step. -/
theorem genLoop_tail_cases (tpl : RecurringTemplate) (E : List Int) (endD : JDate)
    (n : Nat) (c : JDate) :
    (match tpl.end_date with
     | some e =>
       if jsLt e (calculateNextDate c tpl.frequency tpl.interval) then ([] : List RecurringOccurrence)
       else genLoop tpl E endD n (calculateNextDate c tpl.frequency tpl.interval)
     | none => genLoop tpl E endD n (calculateNextDate c tpl.frequency tpl.interval)) = [] ∨
    (match tpl.end_date with
     | some e =>
       if jsLt e (calculateNextDate c tpl.frequency tpl.interval) then ([] : List RecurringOccurrence)
       else genLoop tpl E endD n (calculateNextDate c tpl.frequency tpl.interval)
     | none => genLoop tpl E endD n (calculateNextDate c tpl.frequency tpl.interval)) =
      genLoop tpl E endD n (calculateNextDate c tpl.frequency tpl.interval) := by
  rcases tpl.end_date with _ | e
  · exact Or.inr rfl
  · by_cases hlt : jsLt e (calculateNextDate c tpl.frequency tpl.interval) = true
    · exact Or.inl (by simp [hlt])
    · exact Or.inr (by simp [hlt])

/-- With the dedup set empty, an emitting loop's head is due at the cursor. -/
theorem genLoop_nil_head (tpl : RecurringTemplate) (endD : JDate) :
    ∀ (fuel : Nat) (c : JDate) (o : RecurringOccurrence) (rest : List RecurringOccurrence),
      genLoop tpl [] endD fuel c = o :: rest → o.due_date = c := by
  intro fuel
  cases fuel with
  | zero => intro c o rest h; simp [genLoop] at h
  | succ n =>
    intro c o rest h
    rw [genLoop_succ] at h
    by_cases hle : jsLe c endD = true
    · rw [if_pos hle] at h
      simp only [List.not_mem_nil, if_false, List.cons_append, List.nil_append,
        List.cons.injEq] at h
      rw [← h.1]
      rfl
    · rw [if_neg hle] at h
      exact absurd h (by simp)

/-- Every occurrence the loop emits is due no later than the loop's end date. -/
theorem genLoop_due_le (tpl : RecurringTemplate) (E : List Int) (endD : JDate) :
    ∀ (fuel : Nat) (c : JDate) (o : RecurringOccurrence),
      o ∈ genLoop tpl E endD fuel c → jsLe o.due_date endD = true := by
  intro fuel
  induction fuel with
  | zero => intro c o h; simp [genLoop] at h
  | succ n ih =>
    intro c o h
    rw [genLoop_succ] at h
    by_cases hle : jsLe c endD = true
    · rw [if_pos hle] at h
      rcases List.mem_append.mp h with h1 | h2
      · by_cases hc : dateKey c ∈ E
        · simp [hc] at h1
        · simp only [hc, if_false, List.mem_singleton] at h1
          rw [h1]
          exact hle
      · rcases genLoop_tail_cases tpl E endD n c with hcase | hcase <;> rw [hcase] at h2
        · simp at h2
        · exact ih _ o h2
    · rw [if_neg hle] at h
      simp at h

/-- If the dedup set already covers every date an empty-set run would emit,
the loop emits nothing. -/
theorem genLoop_covered_nil (tpl : RecurringTemplate) (endD : JDate) :
    ∀ (fuel : Nat) (c : JDate) (E : List Int),
      (∀ o ∈ genLoop tpl [] endD fuel c, dateKey o.due_date ∈ E) →
      genLoop tpl E endD fuel c = [] := by
  intro fuel
  induction fuel with
  | zero => intro c E _h; simp [genLoop]
  | succ n ih =>
    intro c E h
    rw [genLoop_succ] at h ⊢
    by_cases hle : jsLe c endD = true
    · rw [if_pos hle] at h ⊢
      simp only [List.not_mem_nil, if_false, List.cons_append, List.nil_append] at h
      have hkey : dateKey c ∈ E := h (RecurringOccurrence.mkNew tpl.id c) (List.mem_cons_self _ _)
      rw [if_pos hkey, List.nil_append]
      rcases hEnd : tpl.end_date with _ | e <;> simp only [hEnd] at h ⊢
      · exact ih _ E fun o ho => h o (List.mem_cons_of_mem _ ho)
      · by_cases hlt : jsLt e (calculateNextDate c tpl.frequency tpl.interval) = true
        · simp [hlt]
        · simp only [hlt, if_false] at h ⊢
          exact ih _ E fun o ho => h o (List.mem_cons_of_mem _ ho)
    · rw [if_neg hle]

/-- With the dedup set empty, consecutive emitted occurrences are one
recurrence step apart. -/
theorem genLoop_chain (tpl : RecurringTemplate) (endD : JDate) :
    ∀ (fuel : Nat) (c : JDate),
      List.Chain'
        (fun a b => b.due_date = calculateNextDate a.due_date tpl.frequency tpl.interval)
        (genLoop tpl [] endD fuel c) := by
  intro fuel
  induction fuel with
  | zero => intro c; simp [genLoop]
  | succ n ih =>
    intro c
    rw [genLoop_succ]
    by_cases hle : jsLe c endD = true
    · rw [if_pos hle]
      simp only [List.not_mem_nil, if_false, List.cons_append, List.nil_append]
      have hstep : ∀ rest, rest = genLoop tpl [] endD n
          (calculateNextDate c tpl.frequency tpl.interval) →
          List.Chain'
            (fun a b => b.due_date = calculateNextDate a.due_date tpl.frequency tpl.interval)
            (RecurringOccurrence.mkNew tpl.id c :: rest) := by
        intro rest hrest
        refine List.chain'_cons'.mpr ⟨?_, by rw [hrest]; exact ih _⟩
        intro b hb
        cases hgl : rest with
        | nil => rw [hgl] at hb; simp at hb
        | cons o tail =>
          rw [hgl] at hb
          simp only [List.head?_cons, Option.mem_def, Option.some.injEq] at hb
          rw [← hb]
          have hh := genLoop_nil_head tpl endD n _ o tail (by rw [← hrest, hgl])
          rw [hh]
          rfl
      rcases hEnd : tpl.end_date with _ | e <;> simp only [hEnd]
      · exact hstep _ rfl
      · by_cases hlt : jsLt e (calculateNextDate c tpl.frequency tpl.interval) = true
        · simp [hlt]
        · simp only [hlt, if_false]
          exact hstep _ rfl
    · rw [if_neg hle]
      exact List.chain'_nil

/-- CLAIM C2.  Occurrence generation is idempotent: if a run from an empty
existing-entry set over an active template returns `out`, then a second run
with the same template, months-ahead input, current date and fuel, fed
`out.occurrences` as the existing entries, emits zero new occurrences. -/
theorem claim_C2_idempotent (tpl : RecurringTemplate) (months_ahead : Option Int)
    (now : JDate) (fuel : Nat) (out : GenerateOccurrencesOutput)
    (h1 : generateRecurringOccurrencesExecute tpl [] months_ahead now fuel = .ok out) :
    generateRecurringOccurrencesExecute tpl out.occurrences months_ahead now fuel =
      .ok { template := tpl, occurrences := [] } := by
  unfold generateRecurringOccurrencesExecute at h1 ⊢
  by_cases ha : tpl.is_active
  · simp only [ha, Bool.not_true, Bool.false_eq_true, if_false, List.map_nil,
      Except.ok.injEq] at h1 ⊢
    have hocc : out.occurrences =
        genLoop tpl [] (calculateEndDate tpl (jsOrDefault months_ahead 3) now) fuel
          tpl.next_occurrence := by
      rw [← h1]
    rw [genLoop_covered_nil tpl _ fuel tpl.next_occurrence _ ?_]
    · intro o ho
      rw [hocc]
      exact List.mem_map_of_mem _ ho
  · simp [ha] at h1

/-- Witness input for C2: the scenario-C run with three occurrences back-fed. -/
def genOutC : GenerateOccurrencesOutput :=
  { template := templateC,
    occurrences :=
      [RecurringOccurrence.mkNew templateC.id ⟨19737, 0⟩,
       RecurringOccurrence.mkNew templateC.id ⟨19768, 0⟩,
       RecurringOccurrence.mkNew templateC.id ⟨19797, 0⟩] }

/-- Witness for C2: the scenario-C run back-fed into a second run emits
nothing. -/
theorem claim_C2_idempotent_witness :
    generateRecurringOccurrencesExecute templateC genOutC.occurrences (some 3) jan2024 10 =
      .ok { template := templateC, occurrences := [] } :=
  claim_C2_idempotent templateC (some 3) jan2024 10 genOutC (by rfl)

/-- Unfolding lemma for `calculateEndDate` when the template has an end date. -/
theorem calculateEndDate_some (tpl : RecurringTemplate) (mA : Int) (now : JDate)
    (e : JDate) (h : tpl.end_date = some e) :
    calculateEndDate tpl mA now =
      if jsLt e (now.setMonthAdd mA) then e else now.setMonthAdd mA := by
  unfold calculateEndDate
  rw [h]

/-- Unfolding lemma for `calculateEndDate` when the template has no end date. -/
theorem calculateEndDate_none (tpl : RecurringTemplate) (mA : Int) (now : JDate)
    (h : tpl.end_date = none) :
    calculateEndDate tpl mA now = now.setMonthAdd mA := by
  unfold calculateEndDate
  rw [h]

/-- CLAIM C7.  For an active template, every emitted occurrence is due no
later than the generation end date — which is the minimum of `now` plus the
resolved months-ahead and the template's `end_date` when set, so it is also
bounded by each of those — the first emitted occurrence is due exactly at
`template.next_occurrence`, and consecutive emitted occurrences are one
recurrence step (`calculateNextDate`) apart; in particular the scenario-C run
(MONTHLY, interval 1, start 2024-01-15, no end date, 3 months ahead, today
2024-01-01) emits exactly 2024-01-15, 2024-02-15 and 2024-03-15, clamped by
the horizon 2024-04-01. -/
theorem claim_C7_generation_schedule (tpl : RecurringTemplate)
    (months_ahead : Option Int) (now : JDate) (fuel : Nat)
    (out : GenerateOccurrencesOutput)
    (h1 : generateRecurringOccurrencesExecute tpl [] months_ahead now fuel = .ok out) :
    ((∀ o ∈ out.occurrences,
        jsLe o.due_date (calculateEndDate tpl (jsOrDefault months_ahead 3) now) = true ∧
        jsLe o.due_date (now.setMonthAdd (jsOrDefault months_ahead 3)) = true ∧
        ∀ e, tpl.end_date = some e → jsLe o.due_date e = true) ∧
     (∀ o rest, out.occurrences = o :: rest → o.due_date = tpl.next_occurrence) ∧
     List.Chain'
       (fun a b => b.due_date = calculateNextDate a.due_date tpl.frequency tpl.interval)
       out.occurrences) ∧
    (generateRecurringOccurrencesExecute templateC [] (some 3) jan2024 10 = .ok genOutC ∧
     genOutC.occurrences.map (fun o => o.due_date) =
       [⟨19737, 0⟩, ⟨19768, 0⟩, ⟨19797, 0⟩] ∧
     jan2024.setMonthAdd 3 = ⟨19814, 0⟩) := by
  have hconc : generateRecurringOccurrencesExecute templateC [] (some 3) jan2024 10 =
      .ok genOutC := by rfl
  unfold generateRecurringOccurrencesExecute at h1
  by_cases ha : tpl.is_active
  · simp only [ha, Bool.not_true, Bool.false_eq_true, if_false, List.map_nil,
      Except.ok.injEq] at h1
    have hocc : out.occurrences =
        genLoop tpl [] (calculateEndDate tpl (jsOrDefault months_ahead 3) now) fuel
          tpl.next_occurrence := by
      rw [← h1]
    refine ⟨⟨?_, ?_, ?_⟩, hconc, by rfl, by rfl⟩
    · intro o ho
      rw [hocc] at ho
      have hle := genLoop_due_le tpl [] _ fuel tpl.next_occurrence o ho
      refine ⟨hle, ?_, ?_⟩
      · rcases hEnd : tpl.end_date with _ | e
        · rw [calculateEndDate_none tpl _ now hEnd] at hle
          exact hle
        · rw [calculateEndDate_some tpl _ now e hEnd] at hle
          by_cases hlt : jsLt e (now.setMonthAdd (jsOrDefault months_ahead 3)) = true
          · rw [if_pos hlt] at hle
            simp only [jsLe, jsLt, decide_eq_true_eq] at hle hlt ⊢
            omega
          · rw [if_neg hlt] at hle
            exact hle
      · intro e hEnd
        rw [calculateEndDate_some tpl _ now e hEnd] at hle
        by_cases hlt : jsLt e (now.setMonthAdd (jsOrDefault months_ahead 3)) = true
        · rw [if_pos hlt] at hle
          exact hle
        · rw [if_neg hlt] at hle
          simp only [jsLe, jsLt, decide_eq_true_eq, not_lt] at hle hlt ⊢
          omega
    · intro o rest hcons
      rw [hocc] at hcons
      exact genLoop_nil_head tpl _ fuel tpl.next_occurrence o rest hcons
    · rw [hocc]
      exact genLoop_chain tpl _ fuel tpl.next_occurrence
  · simp [ha] at h1

/-- Witness for C7: the scenario-C occurrences are nonempty and all due
before the generation end date. -/
theorem claim_C7_generation_schedule_witness :
    genOutC.occurrences ≠ [] ∧
    (∀ o ∈ genOutC.occurrences,
      jsLe o.due_date (calculateEndDate templateC (jsOrDefault (some 3) 3) jan2024) = true) := by
  have h := claim_C7_generation_schedule templateC (some 3) jan2024 10 genOutC (by rfl)
  refine ⟨by simp [genOutC], fun o ho => (h.1.1 o ho).1⟩

/-- CLAIM C9, counterexample.  A generation run over the scenario-C template
emits three occurrences, yet the returned template's `next_occurrence` still
equals its pre-run value — the cursor has not advanced, contradicting the
claim that it no longer equals its pre-run value after an emitting run. -/
theorem claim_C9_counterexample :
    generateRecurringOccurrencesExecute templateC [] (some 3) jan2024 10 = .ok genOutC ∧
    genOutC.occurrences ≠ [] ∧
    genOutC.template.next_occurrence = templateC.next_occurrence := by
  refine ⟨by rfl, by simp [genOutC], rfl⟩

/-- CLAIM C9, amended.  A generation run never writes to the template at
all: the returned template is the input template and its `next_occurrence`
equals the pre-run value; re-running safely relies on the date-key dedup
against existing entries, not on an advancing cursor. -/
theorem claim_C9_cursor_not_advanced (tpl : RecurringTemplate)
    (existing : List RecurringOccurrence) (months_ahead : Option Int) (now : JDate)
    (fuel : Nat) (out : GenerateOccurrencesOutput)
    (h : generateRecurringOccurrencesExecute tpl existing months_ahead now fuel = .ok out) :
    out.template = tpl ∧ out.template.next_occurrence = tpl.next_occurrence := by
  unfold generateRecurringOccurrencesExecute at h
  by_cases ha : tpl.is_active
  · simp only [ha, Bool.not_true, Bool.false_eq_true, if_false, Except.ok.injEq] at h
    rw [← h]
    exact ⟨rfl, rfl⟩
  · simp [ha] at h

/-- Witness for the amended C9 theorem. -/
theorem claim_C9_cursor_not_advanced_witness :
    genOutC.template.next_occurrence = templateC.next_occurrence :=
  (claim_C9_cursor_not_advanced templateC [] (some 3) jan2024 10 genOutC (by rfl)).2

/-- CLAIM C10.  `months_ahead = 0` is falsy under the `input.months_ahead ||
3` default, so it resolves to 3 and both generation entry points behave
exactly as with the default (and as with the field omitted). -/
theorem claim_C10_zero_months_ahead :
    jsOrDefault (some 0) 3 = 3 ∧
    (∀ (tpl : RecurringTemplate) (existing : List RecurringOccurrence)
        (now : JDate) (fuel : Nat),
      generateRecurringOccurrencesExecute tpl existing (some 0) now fuel =
        generateRecurringOccurrencesExecute tpl existing (some 3) now fuel ∧
      generateRecurringOccurrencesExecute tpl existing (some 0) now fuel =
        generateRecurringOccurrencesExecute tpl existing none now fuel) ∧
    (∀ (tpl : RecurringTemplate) (now : JDate) (fuel : Nat),
      createRecurringGenerate tpl (some 0) now fuel =
        createRecurringGenerate tpl (some 3) now fuel ∧
      createRecurringGenerate tpl (some 0) now fuel =
        createRecurringGenerate tpl none now fuel) := by
  refine ⟨rfl, fun tpl existing now fuel => ⟨rfl, rfl⟩, fun tpl now fuel => ⟨rfl, rfl⟩⟩


/-- CLAIM C8.  Installment generation produces exactly `total_installments`
entries; the entry at 0-based index `idx` carries 1-based number `idx + 1`,
is due `first_due_date` plus `idx` calendar months, and starts PENDING; and
scenario A (1200.00 over 12 from 2024-02-01) yields twelve amounts of 100.00
due 2024-02-01 through 2025-01-01. -/
theorem claim_C8_installment_generation (t : InstallmentTemplate) :
    ((generateInstallments t).length = t.total_installments ∧
     ∀ (idx : Nat) (h : idx < (generateInstallments t).length),
       ((generateInstallments t).get ⟨idx, h⟩).installment_number = (idx : Int) + 1 ∧
       ((generateInstallments t).get ⟨idx, h⟩).due_date =
         t.first_due_date.setMonthAdd (idx : Int) ∧
       ((generateInstallments t).get ⟨idx, h⟩).status = OccurrenceStatus.PENDING) ∧
    ((generateInstallments templateA).map Installment.amount =
       List.replicate 12 100 ∧
     (generateInstallments templateA).map (fun i => i.due_date) =
       [⟨19754, 0⟩, ⟨19783, 0⟩, ⟨19814, 0⟩, ⟨19844, 0⟩, ⟨19875, 0⟩, ⟨19905, 0⟩,
        ⟨19936, 0⟩, ⟨19967, 0⟩, ⟨19997, 0⟩, ⟨20028, 0⟩, ⟨20058, 0⟩, ⟨20089, 0⟩]) := by
  have hlen : (generateInstallments t).length = t.total_installments := by
    unfold generateInstallments
    rw [List.length_map, List.length_range]
  constructor
  · refine ⟨hlen, ?_⟩
    intro idx h
    refine ⟨?_, ?_, ?_⟩ <;>
      simp only [generateInstallments, List.get_eq_getElem, List.getElem_map,
        List.getElem_range, Installment.mkNew, InstallmentTemplate.dueDateAt,
        add_sub_cancel_right]
  · have e3 : round2 (100 : ℚ) = 100 := by
      rw [show (100 : ℚ) = ((100 : ℤ) : ℚ) by norm_num, round2_intCast]
    constructor
    · simp only [generateInstallments, templateA, InstallmentTemplate.getInstallmentAmount,
        Installment.mkNew, List.range_succ, List.range_zero, List.nil_append,
        List.cons_append, List.map_cons, List.map_nil, List.map_append]
      norm_num [e3, List.replicate]
    · decide

/-- Witness for C8: the first generated installment of the scenario-A
template has number 1 and starts PENDING. -/
theorem claim_C8_installment_generation_witness :
    ((generateInstallments templateA).get ⟨0, by decide⟩).installment_number = 1 ∧
    ((generateInstallments templateA).get ⟨0, by decide⟩).status =
      OccurrenceStatus.PENDING := by
  have h := (claim_C8_installment_generation templateA).1.2 0 (by decide)
  exact ⟨by simpa using h.1, h.2.2⟩
